import Mathlib

/-!
Shallow embedding of `src/main.py`, the Hippocratic bedtime-story generator.

The OpenAI chat endpoint is an external collaborator (spec §6): every
LLM-backed function makes exactly one `call_chat` invocation, so each such
function is abstracted as one field of a `PortEnv` oracle giving the text
(or, for the judge, the JSON parse outcome of the text) that the single
`call_chat` call returns for given arguments.  User inputs are modeled
post-`strip()`.  Printing is omitted; `show_judge_info` only affects
printing and so does not appear in the state.
-/

namespace Bedtime

/-- JSON values as produced by `json.loads`.  Numbers are modeled as
integers, which suffices for every score occurring in the claims. -/
inductive Json where
  | null
  | bool (b : Bool)
  | num (n : Int)
  | str (s : String)
  | arr (elems : List Json)
  | obj (fields : List (String × Json))

/-- Python truthiness of a JSON value, as applied by
`if verdict.get("needs_revision", False):`. -/
def Json.truthy : Json → Bool
  | .null => false
  | .bool b => b
  | .num n => n != 0
  | .str s => s != ""
  | .arr elems => !elems.isEmpty
  | .obj fields => !fields.isEmpty

/-- A judge verdict: the Python `Dict[str, Any]` in insertion order
(`json.loads` objects have distinct keys). -/
abbrev Verdict := List (String × Json)

/-- Dict lookup, `none` when the key is absent. -/
def vget? (d : Verdict) (k : String) : Option Json :=
  (d.find? (fun p => p.1 == k)).map (fun p => p.2)

/-- Python `d.get(k, dflt)`. -/
def vget (d : Verdict) (k : String) (dflt : Json) : Json :=
  (vget? d k).getD dflt

/-- Whether the dict has the key. -/
def hasKey (d : Verdict) (k : String) : Bool :=
  d.any (fun p => p.1 == k)

/-- Python `d.setdefault(k, v)`, returning the updated dict. -/
def setdefault (d : Verdict) (k : String) (v : Json) : Verdict :=
  if hasKey d k then d else d ++ [(k, v)]

/-- Oracle for the Text-Generation Port: one field per LLM-backed source
function, giving the result of the single `call_chat` call that function makes.
For `judge_story` the field gives the JSON parse outcome of the raw reply:
`none` models a `json.loads` failure. -/
structure PortEnv where
  gen : String → String → String
  judgeRaw : String → String → String → Option Json
  rev : String → String → Verdict → String → Option String → String

/-- The `mapping` dict of `get_reading_level_label`. -/
def reading_level_mapping : List (String × String) :=
  [("1", "very simple language for ages 5–6, with short sentences (6–10 words) and very basic everyday vocabulary"),
   ("2", "simple language for ages 7–8, with mostly short sentences (8–14 words) and easy everyday vocabulary"),
   ("3", "clear spoken language for ages 9–10, still gentle, with mostly short sentences and no literary or complex phrasing")]

/-- `get_reading_level_label`: `mapping.get(level, mapping["2"])`. -/
def get_reading_level_label (level : String) : String :=
  match reading_level_mapping.lookup level with
  | some l => l
  | none => (reading_level_mapping.lookup "2").getD ""

/-- `get_spoken_style_instructions`. -/
def get_spoken_style_instructions (level : String) : String :=
  if level = "1" then
    "- Pretend you are talking out loud to a 5-year-old.\n- Use very short, simple sentences (6–10 words).\n- Use only familiar everyday words.\n- Keep the tone warm, gentle, and playful.\n"
  else if level = "2" then
    "- Pretend you are talking to a 7-year-old.\n- Use short sentences (8–14 words) and simple vocabulary.\n- Avoid complex clauses.\n- Keep the tone friendly and clear.\n"
  else
    "- Pretend you are talking to a 9-year-old.\n- Use mostly short, clear spoken sentences.\n- Avoid overly poetic or complex language.\n- Keep the tone friendly and easy to follow.\n"

/-- `get_length_instructions`. -/
def get_length_instructions (level : String) : String :=
  if level = "1" then
    "Formatting and length:\n- Write the story in 3 to 5 paragraphs.\n- Each paragraph should have at least 3 short sentences.\n- Do NOT end the story after only 1 or 2 paragraphs.\n"
  else if level = "2" then
    "Formatting and length:\n- Write the story in 4 to 6 paragraphs.\n- Each paragraph should have 3–5 sentences.\n- Do NOT end the story after only 1 or 2 paragraphs.\n"
  else
    "Formatting and length:\n- Write the story in 5 to 7 paragraphs.\n- Each paragraph should have 3–6 sentences.\n"

/-- `generate_story`: one `call_chat` with prompts built from the request
and reading level, abstracted as the `gen` oracle field. -/
def generate_story (env : PortEnv) (user_request reading_level : String) : String :=
  env.gen user_request reading_level

/-- The `feedback_for_author` text of the fail-closed verdict (the two
adjacent Python string literals concatenated). -/
def parse_fail_feedback : String :=
  "Could not parse judge response. Recommend clearer plot with a specific conflict, named characters, dialogue, simpler language, and an explicit moral."

/-- The fail-closed verdict returned by `judge_story` from its `except`
branch. -/
def fallback_verdict : Verdict :=
  [("score", Json.num 0),
   ("needs_revision", Json.bool true),
   ("feedback_for_author", Json.str parse_fail_feedback),
   ("safety_warnings", Json.str "Parsing failed.")]

/-- `judge_story`: parse the raw model reply; when it is a JSON object,
apply the four `setdefault`s; any other outcome (a `json.loads` error, or a
non-dict value, whose `.setdefault` raises `AttributeError`) lands in the
`except` branch and yields `fallback_verdict`. -/
def judge_story (env : PortEnv) (user_request story reading_level : String) : Verdict :=
  match env.judgeRaw user_request story reading_level with
  | some (Json.obj fields) =>
      setdefault (setdefault (setdefault (setdefault fields
        "score" (Json.num 0))
        "needs_revision" (Json.bool false))
        "feedback_for_author" (Json.str ""))
        "safety_warnings" (Json.str "")
  | _ => fallback_verdict

/-- `revise_story`: one `call_chat` with prompts built from the arguments
(including `user_modification_instruction or "No extra user requests."`),
abstracted as the `rev` oracle field. -/
def revise_story (env : PortEnv) (user_request original_story : String)
    (judge_feedback : Verdict) (reading_level : String)
    (user_modification_instruction : Option String) : String :=
  env.rev user_request original_story judge_feedback reading_level
    user_modification_instruction

/-- Result of the pipeline, instrumented with the number of `revise_story`
invocations and of Port (`call_chat`) invocations it performed. -/
structure PipelineResult where
  story : String
  verdict : Verdict
  reviseCalls : Nat
  portCalls : Nat

/-- `generate_story_with_judge`: generate, judge, and if the field `needs_revision` of the verdict is truthy, revise once and re-judge. -/
def generate_story_with_judge (env : PortEnv) (user_request reading_level : String) :
    PipelineResult :=
  let story := generate_story env user_request reading_level
  let verdict := judge_story env user_request story reading_level
  if (vget verdict "needs_revision" (Json.bool false)).truthy then
    let story2 := revise_story env user_request story verdict reading_level none
    let verdict2 := judge_story env user_request story2 reading_level
    ⟨story2, verdict2, 1, 4⟩
  else
    ⟨story, verdict, 0, 2⟩

/-- The mutable locals of `customization_menu` (the reading level is a
parameter rebound by choice 3, hence part of the state). -/
structure Session where
  story : String
  verdict : Verdict
  current_request : String
  reading_level : String
  customizations_used : Nat

/-- The inputs one iteration of the menu may read: the menu choice, and the
branch-specific second input (the suggestion for choice 2, the
`select_reading_level` result for choice 3, the new request for choice 4).
All are post-`strip()`. -/
structure UserInput where
  choice : String
  suggestion : String
  newLevel : String
  newReq : String

/-- State of the customization loop: still looping, or returned. -/
inductive LoopState where
  | active (s : Session)
  | terminal (story : String) (verdict : Verdict)

/-- One solicited iteration of the `customization_menu` loop body (the code
past `choice = input(...)`, reached only when `remaining > 0`).  The second
component counts the Port calls the iteration makes. -/
def process_choice (env : PortEnv) (s : Session) (inp : UserInput) : LoopState × Nat :=
  if inp.choice = "1" then
    (.terminal s.story s.verdict, 0)
  else if ¬(inp.choice = "2" ∨ inp.choice = "3" ∨ inp.choice = "4") then
    (.active s, 0)
  else
    let used1 := s.customizations_used + 1
    if inp.choice = "2" then
      if inp.suggestion = "" then
        (.active { s with customizations_used := used1 - 1 }, 0)
      else
        let story2 := revise_story env s.current_request s.story s.verdict
          s.reading_level (some inp.suggestion)
        let verdict2 := judge_story env s.current_request story2 s.reading_level
        (.active { s with story := story2, verdict := verdict2,
                          customizations_used := used1 }, 2)
    else if inp.choice = "3" then
      let r := generate_story_with_judge env s.current_request inp.newLevel
      (.active { s with story := r.story, verdict := r.verdict,
                        reading_level := inp.newLevel,
                        customizations_used := used1 }, r.portCalls)
    else
      if inp.newReq = "" then
        (.active { s with customizations_used := used1 - 1 }, 0)
      else
        let r := generate_story_with_judge env inp.newReq s.reading_level
        (.active { s with story := r.story, verdict := r.verdict,
                          current_request := inp.newReq,
                          customizations_used := used1 }, r.portCalls)

/-- The `while True` loop of `customization_menu`, driven by an input
stream.  Returns the Session at each menu presentation (top of the loop,
where the menu and the remaining count are printed) together with the final
state: `terminal` on return, `active` if the input stream runs dry.  The
`remaining <= 0` exit happens after the presentation but before any input
is read, exactly as in the source. -/
def menu_run (env : PortEnv) (max_customizations : Int) (s : Session)
    (inputs : List UserInput) : List Session × LoopState :=
  if max_customizations - (s.customizations_used : Int) ≤ 0 then
    ([s], .terminal s.story s.verdict)
  else
    match inputs with
    | [] => ([s], .active s)
    | inp :: rest =>
      match process_choice env s inp with
      | (.terminal st v, _) => ([s], .terminal st v)
      | (.active s2, _) =>
        let r := menu_run env max_customizations s2 rest
        (s :: r.1, r.2)

/-- `customization_menu`: initialize the locals (`customizations_used = 0`,
story/verdict/request/level from the arguments) and run the loop. -/
def customization_menu (env : PortEnv) (initial_request initial_story : String)
    (initial_verdict : Verdict) (reading_level : String)
    (max_customizations : Int) (inputs : List UserInput) : List Session × LoopState :=
  menu_run env max_customizations
    ⟨initial_story, initial_verdict, initial_request, reading_level, 0⟩ inputs

/-- An input that is neither an invalid menu choice nor a cancelled
(empty-text) action: it either accepts (choice 1) or spends one
customization (choices 2–4 with non-empty text where text is read). -/
def nonCancelling (inp : UserInput) : Bool :=
  inp.choice == "1" ||
  (inp.choice == "2" && inp.suggestion != "") ||
  inp.choice == "3" ||
  (inp.choice == "4" && inp.newReq != "")

/-- The well-formedness that the data model of the spec asserts of every Verdict:
score a number in [0,10], boolean `needs_revision`, text feedback and
safety fields. -/
def VerdictWellFormed (v : Verdict) : Prop :=
  (∃ n : Int, vget? v "score" = some (Json.num n) ∧ 0 ≤ n ∧ n ≤ 10) ∧
  (∃ b : Bool, vget? v "needs_revision" = some (Json.bool b)) ∧
  (∃ t : String, vget? v "feedback_for_author" = some (Json.str t)) ∧
  (∃ t : String, vget? v "safety_warnings" = some (Json.str t))

/-- Oracle whose judge reply never parses (`json.loads` raises). -/
def nullEnv : PortEnv :=
  ⟨fun _ _ => "Once there was a fox.", fun _ _ _ => none, fun _ _ _ _ _ => "Revised fox tale."⟩

/-- Oracle whose judge reply parses to a JSON object carrying an
out-of-range score. -/
def badJudgeEnv : PortEnv :=
  ⟨fun _ _ => "Once there was a fox.",
   fun _ _ _ => some (Json.obj [("score", Json.num 11)]),
   fun _ _ _ _ _ => "Revised fox tale."⟩

/-- A concrete judged verdict for exercising the loop. -/
def sampleVerdict : Verdict :=
  [("score", Json.num 8), ("needs_revision", Json.bool false),
   ("feedback_for_author", Json.str "Nice and cozy."), ("safety_warnings", Json.str "")]

/-- A concrete loop state for witnesses. -/
def sampleSession : Session :=
  ⟨"Once there was a fox.", sampleVerdict, "a fox story", "2", 0⟩

/-- Menu input: accept (choice 1). -/
def inputAccept : UserInput := ⟨"1", "", "", ""⟩

/-- Menu input: choice 2 with the suggestion left empty (cancel). -/
def inputEmptySuggest : UserInput := ⟨"2", "", "", ""⟩

/-- Menu input: choice 2 with a non-empty suggestion. -/
def inputSuggest : UserInput := ⟨"2", "make it sillier", "", ""⟩

/-- Menu input: choice 4 with the new request left empty (cancel). -/
def inputEmptyNewReq : UserInput := ⟨"4", "", "", ""⟩

/-- Menu input: an out-of-menu choice. -/
def inputInvalid : UserInput := ⟨"7", "", "", ""⟩

/-! Helper lemmas about dict operations. -/

theorem hasKey_setdefault_self (d : Verdict) (k : String) (v : Json) :
    hasKey (setdefault d k v) k = true := by
  unfold setdefault
  by_cases h : hasKey d k = true
  · rw [if_pos h]; exact h
  · rw [if_neg h]
    unfold hasKey
    rw [List.any_append]
    simp

theorem hasKey_setdefault_of_hasKey (d : Verdict) (k k2 : String) (v : Json)
    (h : hasKey d k = true) : hasKey (setdefault d k2 v) k = true := by
  unfold setdefault
  by_cases h2 : hasKey d k2 = true
  · rw [if_pos h2]; exact h
  · rw [if_neg h2]
    unfold hasKey at h ⊢
    rw [List.any_append]
    simp [h]

/-- C1: whenever the judge reply does not parse to a JSON object --
malformed output (a `json.loads` error) or non-conforming output (a JSON
value that is not a dict, on which `.setdefault` raises) -- `judge_story`
returns the fixed fail-closed verdict: score 0, `needs_revision` true, the
generic feedback naming conflict, named characters, dialogue, moral and
simplicity, and non-empty `safety_warnings` saying parsing failed.  Being a
total function into `Verdict`, it propagates no error to the caller. -/
theorem C1_judge_fail_closed (env : PortEnv) (user_request story reading_level : String)
    (h : ∀ fields, env.judgeRaw user_request story reading_level ≠ some (Json.obj fields)) :
    judge_story env user_request story reading_level = fallback_verdict ∧
    vget? fallback_verdict "score" = some (Json.num 0) ∧
    vget? fallback_verdict "needs_revision" = some (Json.bool true) ∧
    vget? fallback_verdict "feedback_for_author" = some (Json.str parse_fail_feedback) ∧
    vget? fallback_verdict "safety_warnings" = some (Json.str "Parsing failed.") ∧
    ("Parsing failed." : String) ≠ "" := by
  refine ⟨?_, rfl, rfl, rfl, rfl, by decide⟩
  unfold judge_story
  cases hr : env.judgeRaw user_request story reading_level with
  | none => rfl
  | some j =>
    cases j with
    | obj fields => exact absurd hr (h fields)
    | null => rfl
    | bool b => rfl
    | num n => rfl
    | str s => rfl
    | arr elems => rfl

/-- C1 witness: instantiation at an oracle whose judge reply never
parses. -/
theorem C1_judge_fail_closed_witness :
    judge_story nullEnv "a fox story" "Once there was a fox." "2" = fallback_verdict ∧
    vget? fallback_verdict "score" = some (Json.num 0) ∧
    vget? fallback_verdict "needs_revision" = some (Json.bool true) ∧
    vget? fallback_verdict "feedback_for_author" = some (Json.str parse_fail_feedback) ∧
    vget? fallback_verdict "safety_warnings" = some (Json.str "Parsing failed.") ∧
    ("Parsing failed." : String) ≠ "" :=
  C1_judge_fail_closed nullEnv "a fox story" "Once there was a fox." "2"
    (fun _ hcontra => Option.noConfusion hcontra)

/-- C3: the pipeline invokes the Reviser at most once, revises exactly when
the `needs_revision` field of the first verdict is true (Python truthiness of the
field), and unconditionally returns the resulting story paired with the
verdict from re-judging that story -- with no condition on the
`needs_revision` field of the second verdict. -/
theorem C3_pipeline_revises_at_most_once (env : PortEnv) (user_request reading_level : String) :
    (generate_story_with_judge env user_request reading_level).reviseCalls ≤ 1 ∧
    ((generate_story_with_judge env user_request reading_level).reviseCalls = 1 ↔
      (vget (judge_story env user_request (generate_story env user_request reading_level)
        reading_level) "needs_revision" (Json.bool false)).truthy = true) ∧
    (generate_story_with_judge env user_request reading_level).story =
      (if (vget (judge_story env user_request (generate_story env user_request reading_level)
          reading_level) "needs_revision" (Json.bool false)).truthy then
        revise_story env user_request (generate_story env user_request reading_level)
          (judge_story env user_request (generate_story env user_request reading_level)
            reading_level) reading_level none
      else generate_story env user_request reading_level) ∧
    (generate_story_with_judge env user_request reading_level).verdict =
      judge_story env user_request
        (generate_story_with_judge env user_request reading_level).story reading_level := by
  by_cases h : (vget (judge_story env user_request (generate_story env user_request reading_level)
      reading_level) "needs_revision" (Json.bool false)).truthy
  · simp [generate_story_with_judge, h]
  · simp [generate_story_with_judge, h]

/-- C9 counterexample: a judge reply that parses to the JSON object mapping score to 11 makes
`judge_story` return a verdict whose score lies outside [0,10], refuting
the claim that every produced verdict has a score in [0,10]. -/
theorem C9_counterexample :
    ¬ VerdictWellFormed (judge_story badJudgeEnv "a fox story" "Once there was a fox." "2") := by
  intro hwf
  obtain ⟨⟨n, hn, _, hle⟩, _⟩ := hwf
  have hv : vget? (judge_story badJudgeEnv "a fox story" "Once there was a fox." "2") "score"
      = some (Json.num 11) := rfl
  rw [hv] at hn
  simp only [Option.some.injEq, Json.num.injEq] at hn
  omega

/-- C9 amended: every verdict `judge_story` produces contains all four
fields (`score`, `needs_revision`, `feedback_for_author`,
`safety_warnings`); on the fail-closed path they carry the documented
values, but on the parsed path the values are whatever the model sent, so
no range or type constraint holds beyond key presence. -/
theorem C9_verdict_has_all_fields (env : PortEnv) (user_request story reading_level : String) :
    hasKey (judge_story env user_request story reading_level) "score" = true ∧
    hasKey (judge_story env user_request story reading_level) "needs_revision" = true ∧
    hasKey (judge_story env user_request story reading_level) "feedback_for_author" = true ∧
    hasKey (judge_story env user_request story reading_level) "safety_warnings" = true := by
  unfold judge_story
  cases hr : env.judgeRaw user_request story reading_level with
  | none => exact ⟨rfl, rfl, rfl, rfl⟩
  | some j =>
    cases j with
    | obj fields =>
      refine ⟨?_, ?_, ?_, ?_⟩
      · exact hasKey_setdefault_of_hasKey _ _ _ _
          (hasKey_setdefault_of_hasKey _ _ _ _
            (hasKey_setdefault_of_hasKey _ _ _ _ (hasKey_setdefault_self _ _ _)))
      · exact hasKey_setdefault_of_hasKey _ _ _ _
          (hasKey_setdefault_of_hasKey _ _ _ _ (hasKey_setdefault_self _ _ _))
      · exact hasKey_setdefault_of_hasKey _ _ _ _ (hasKey_setdefault_self _ _ _)
      · exact hasKey_setdefault_self _ _ _
    | null => exact ⟨rfl, rfl, rfl, rfl⟩
    | bool b => exact ⟨rfl, rfl, rfl, rfl⟩
    | num n => exact ⟨rfl, rfl, rfl, rfl⟩
    | str s => exact ⟨rfl, rfl, rfl, rfl⟩
    | arr elems => exact ⟨rfl, rfl, rfl, rfl⟩

/-! Helper lemmas: the value of `process_choice` in each branch. -/

theorem pc_eq_accept (env : PortEnv) (s : Session) (inp : UserInput)
    (hc : inp.choice = "1") :
    process_choice env s inp = (.terminal s.story s.verdict, 0) := by
  unfold process_choice
  rw [if_pos hc]

theorem pc_eq_invalid (env : PortEnv) (s : Session) (inp : UserInput)
    (h1 : inp.choice ≠ "1") (h2 : inp.choice ≠ "2") (h3 : inp.choice ≠ "3")
    (h4 : inp.choice ≠ "4") :
    process_choice env s inp = (.active s, 0) := by
  unfold process_choice
  rw [if_neg h1, if_pos (fun hor => hor.elim h2 (fun hor2 => hor2.elim h3 h4))]

theorem pc_eq_suggest_empty (env : PortEnv) (s : Session) (inp : UserInput)
    (hc : inp.choice = "2") (ht : inp.suggestion = "") :
    process_choice env s inp = (.active s, 0) := by
  cases s
  unfold process_choice
  rw [if_neg (by simp [hc]), if_neg (not_not_intro (Or.inl hc))]
  simp [hc, ht]

theorem pc_eq_suggest (env : PortEnv) (s : Session) (inp : UserInput)
    (hc : inp.choice = "2") (ht : inp.suggestion ≠ "") :
    process_choice env s inp =
      (.active { s with
          story := revise_story env s.current_request s.story s.verdict
            s.reading_level (some inp.suggestion),
          verdict := judge_story env s.current_request
            (revise_story env s.current_request s.story s.verdict
              s.reading_level (some inp.suggestion)) s.reading_level,
          customizations_used := s.customizations_used + 1 }, 2) := by
  unfold process_choice
  rw [if_neg (by simp [hc]), if_neg (not_not_intro (Or.inl hc))]
  simp [hc, ht]

theorem pc_eq_level (env : PortEnv) (s : Session) (inp : UserInput)
    (hc : inp.choice = "3") :
    process_choice env s inp =
      (.active { s with
          story := (generate_story_with_judge env s.current_request inp.newLevel).story,
          verdict := (generate_story_with_judge env s.current_request inp.newLevel).verdict,
          reading_level := inp.newLevel,
          customizations_used := s.customizations_used + 1 },
        (generate_story_with_judge env s.current_request inp.newLevel).portCalls) := by
  unfold process_choice
  rw [if_neg (by simp [hc]), if_neg (not_not_intro (Or.inr (Or.inl hc)))]
  simp [hc]

theorem pc_eq_newreq_empty (env : PortEnv) (s : Session) (inp : UserInput)
    (hc : inp.choice = "4") (ht : inp.newReq = "") :
    process_choice env s inp = (.active s, 0) := by
  cases s
  unfold process_choice
  rw [if_neg (by simp [hc]), if_neg (not_not_intro (Or.inr (Or.inr hc)))]
  simp [hc, ht]

theorem pc_eq_newreq (env : PortEnv) (s : Session) (inp : UserInput)
    (hc : inp.choice = "4") (ht : inp.newReq ≠ "") :
    process_choice env s inp =
      (.active { s with
          story := (generate_story_with_judge env inp.newReq s.reading_level).story,
          verdict := (generate_story_with_judge env inp.newReq s.reading_level).verdict,
          current_request := inp.newReq,
          customizations_used := s.customizations_used + 1 },
        (generate_story_with_judge env inp.newReq s.reading_level).portCalls) := by
  unfold process_choice
  rw [if_neg (by simp [hc]), if_neg (not_not_intro (Or.inr (Or.inr hc)))]
  simp [hc, ht]

/-- Any iteration that stays `active` leaves the session unchanged or
increments `customizations_used` by exactly one. -/
theorem process_choice_active_used (env : PortEnv) (s : Session) (inp : UserInput)
    (s2 : Session) (n : Nat) (h : process_choice env s inp = (.active s2, n)) :
    s2 = s ∨ s2.customizations_used = s.customizations_used + 1 := by
  by_cases hc1 : inp.choice = "1"
  · rw [pc_eq_accept env s inp hc1] at h
    simp at h
  by_cases hc2 : inp.choice = "2"
  · by_cases ht : inp.suggestion = ""
    · rw [pc_eq_suggest_empty env s inp hc2 ht] at h
      simp at h
      exact Or.inl h.1.symm
    · rw [pc_eq_suggest env s inp hc2 ht] at h
      simp at h
      right
      rw [← h.1]
  by_cases hc3 : inp.choice = "3"
  · rw [pc_eq_level env s inp hc3] at h
    simp at h
    right
    rw [← h.1]
  by_cases hc4 : inp.choice = "4"
  · by_cases ht : inp.newReq = ""
    · rw [pc_eq_newreq_empty env s inp hc4 ht] at h
      simp at h
      exact Or.inl h.1.symm
    · rw [pc_eq_newreq env s inp hc4 ht] at h
      simp at h
      right
      rw [← h.1]
  · rw [pc_eq_invalid env s inp hc1 hc2 hc3 hc4] at h
    simp at h
    exact Or.inl h.1.symm

/-- A non-cancelling input either accepts or spends exactly one
customization. -/
theorem process_choice_nonCancelling (env : PortEnv) (s : Session) (inp : UserInput)
    (h : nonCancelling inp = true) :
    process_choice env s inp = (.terminal s.story s.verdict, 0) ∨
    ∃ s2 n, process_choice env s inp = (.active s2, n) ∧
      s2.customizations_used = s.customizations_used + 1 := by
  simp only [nonCancelling, Bool.or_eq_true, Bool.and_eq_true, beq_iff_eq,
    bne_iff_ne] at h
  rcases h with ((hc | ⟨hc, ht⟩) | hc) | ⟨hc, ht⟩
  · exact Or.inl (pc_eq_accept env s inp hc)
  · exact Or.inr ⟨_, _, pc_eq_suggest env s inp hc ht, rfl⟩
  · exact Or.inr ⟨_, _, pc_eq_level env s inp hc, rfl⟩
  · exact Or.inr ⟨_, _, pc_eq_newreq env s inp hc ht, rfl⟩

/-- C4: in the customization loop, an empty suggestion (choice 2) or an
empty new-request input (choice 4) is a no-op: the session -- story,
verdict, request, reading level and `customizations_used` -- is returned
unchanged, the loop stays `active`, and no Port call is made. -/
theorem C4_empty_input_is_noop (env : PortEnv) (s : Session) (inp : UserInput)
    (h : (inp.choice = "2" ∧ inp.suggestion = "") ∨
         (inp.choice = "4" ∧ inp.newReq = "")) :
    process_choice env s inp = (.active s, 0) := by
  rcases h with ⟨hc, ht⟩ | ⟨hc, ht⟩
  · exact pc_eq_suggest_empty env s inp hc ht
  · exact pc_eq_newreq_empty env s inp hc ht

/-- C4 witness: cancelling a suggestion leaves the sample session
untouched. -/
theorem C4_empty_input_is_noop_witness :
    process_choice nullEnv sampleSession inputEmptySuggest = (.active sampleSession, 0) :=
  C4_empty_input_is_noop nullEnv sampleSession inputEmptySuggest (Or.inl ⟨rfl, rfl⟩)

/-- C5: whenever `remaining = max_customizations - customizations_used ≤ 0`
at the top of the loop, the loop returns the current story and verdict for
every input stream whatsoever -- hence without reading any input. -/
theorem C5_exhausted_budget_terminates (env : PortEnv) (max_customizations : Int)
    (s : Session)
    (h : max_customizations - (s.customizations_used : Int) ≤ 0)
    (inputs : List UserInput) :
    menu_run env max_customizations s inputs = ([s], .terminal s.story s.verdict) := by
  unfold menu_run
  rw [if_pos h]

/-- C5 witness: with a zero budget the loop ignores a pending accept
input. -/
theorem C5_exhausted_budget_terminates_witness :
    menu_run nullEnv 0 sampleSession [inputAccept] =
      ([sampleSession], .terminal sampleSession.story sampleSession.verdict) :=
  C5_exhausted_budget_terminates nullEnv 0 sampleSession (by decide) [inputAccept]

/-- C7: choosing Accept (choice 1) immediately returns the current
story and verdict of the session unchanged, with zero Port calls; the session
(including `customizations_used`) is not touched. -/
theorem C7_accept_returns_current (env : PortEnv) (s : Session) (inp : UserInput)
    (hc : inp.choice = "1") :
    process_choice env s inp = (.terminal s.story s.verdict, 0) :=
  pc_eq_accept env s inp hc

/-- C7 witness: accepting the sample session returns it verbatim. -/
theorem C7_accept_returns_current_witness :
    process_choice nullEnv sampleSession inputAccept =
      (.terminal sampleSession.story sampleSession.verdict, 0) :=
  C7_accept_returns_current nullEnv sampleSession inputAccept rfl

/-- C8: any menu input outside {1, 2, 3, 4} is rejected: the loop stays
`active` on the very same session (story, verdict, request, reading level,
`customizations_used` all unchanged) and no Port call is made. -/
theorem C8_invalid_choice_rejected (env : PortEnv) (s : Session) (inp : UserInput)
    (h1 : inp.choice ≠ "1") (h2 : inp.choice ≠ "2") (h3 : inp.choice ≠ "3")
    (h4 : inp.choice ≠ "4") :
    process_choice env s inp = (.active s, 0) :=
  pc_eq_invalid env s inp h1 h2 h3 h4

/-- C8 witness: the out-of-menu choice 7 is rejected without effect. -/
theorem C8_invalid_choice_rejected_witness :
    process_choice nullEnv sampleSession inputInvalid = (.active sampleSession, 0) :=
  C8_invalid_choice_rejected nullEnv sampleSession inputInvalid
    (by decide) (by decide) (by decide) (by decide)

/-- Invariant lemma: along any run of the loop, every session shown at a
menu presentation keeps `customizations_used ≤ max_customizations`,
provided the entry session does. -/
theorem menu_run_trace_used_le (env : PortEnv) (max_customizations : Int)
    (inputs : List UserInput) (s : Session)
    (hs : (s.customizations_used : Int) ≤ max_customizations) :
    ∀ s2 ∈ (menu_run env max_customizations s inputs).1,
      (s2.customizations_used : Int) ≤ max_customizations := by
  induction inputs generalizing s with
  | nil =>
    intro s2 hmem
    unfold menu_run at hmem
    split at hmem <;> simp at hmem <;> subst hmem <;> exact hs
  | cons inp rest ih =>
    intro s2 hmem
    unfold menu_run at hmem
    split at hmem
    · simp at hmem
      subst hmem
      exact hs
    · rename_i hcond
      revert hmem
      cases hpc : process_choice env s inp with
      | mk fst n =>
        cases fst with
        | terminal st v =>
          intro hmem
          simp [hpc] at hmem
          subst hmem
          exact hs
        | active s3 =>
          intro hmem
          simp [hpc] at hmem
          have hle3 : (s3.customizations_used : Int) ≤ max_customizations := by
            rcases process_choice_active_used env s inp s3 n hpc with heq | hinc
            · rw [heq]; exact hs
            · rw [hinc]; push_cast; omega
          rcases hmem with hmem | hmem
          · subst hmem; exact hs
          · exact ih s3 hle3 s2 hmem

/-- C2: for every input sequence, every state of the customization loop --
at each menu presentation and hence at termination -- satisfies
`0 ≤ customizations_used ≤ max_customizations` (budget fixed at entry,
where `customizations_used` is initialized to 0). -/
theorem C2_budget_invariant (env : PortEnv) (initial_request initial_story : String)
    (initial_verdict : Verdict) (reading_level : String)
    (max_customizations : Int) (inputs : List UserInput)
    (hm : 0 ≤ max_customizations) :
    ∀ s ∈ (customization_menu env initial_request initial_story initial_verdict
      reading_level max_customizations inputs).1,
      0 ≤ (s.customizations_used : Int) ∧
      (s.customizations_used : Int) ≤ max_customizations := by
  intro s hmem
  refine ⟨Int.natCast_nonneg _, ?_⟩
  exact menu_run_trace_used_le env max_customizations inputs
    ⟨initial_story, initial_verdict, initial_request, reading_level, 0⟩
    (by simpa using hm) s hmem

/-- C2 witness: instantiation at the default budget 3 with an empty input
stream, evaluated at the single presented session. -/
theorem C2_budget_invariant_witness :
    0 ≤ ((⟨"Once there was a fox.", sampleVerdict, "a fox story", "2", 0⟩ :
      Session).customizations_used : Int) ∧
    ((⟨"Once there was a fox.", sampleVerdict, "a fox story", "2", 0⟩ :
      Session).customizations_used : Int) ≤ 3 :=
  C2_budget_invariant nullEnv "a fox story" "Once there was a fox." sampleVerdict "2" 3 []
    (by decide) ⟨"Once there was a fox.", sampleVerdict, "a fox story", "2", 0⟩
    (List.mem_singleton.mpr rfl)

/-- Termination lemma: with only non-cancelling inputs and at least
`remaining` of them available, the loop reaches `terminal` after at most
`remaining + 1` menu presentations. -/
theorem menu_run_terminates (env : PortEnv) (max_customizations : Int)
    (inputs : List UserInput) (s : Session)
    (hnc : ∀ inp ∈ inputs, nonCancelling inp = true)
    (hlen : (max_customizations - (s.customizations_used : Int)).toNat ≤ inputs.length) :
    (menu_run env max_customizations s inputs).1.length ≤
      (max_customizations - (s.customizations_used : Int)).toNat + 1 ∧
    ∃ st v, (menu_run env max_customizations s inputs).2 = .terminal st v := by
  induction inputs generalizing s with
  | nil =>
    have hc : max_customizations - (s.customizations_used : Int) ≤ 0 := by
      simp at hlen
      omega
    unfold menu_run
    rw [if_pos hc]
    exact ⟨by simp, s.story, s.verdict, rfl⟩
  | cons inp rest ih =>
    by_cases hc : max_customizations - (s.customizations_used : Int) ≤ 0
    · unfold menu_run
      rw [if_pos hc]
      exact ⟨by simp, s.story, s.verdict, rfl⟩
    · unfold menu_run
      rw [if_neg hc]
      rcases process_choice_nonCancelling env s inp (hnc inp (List.mem_cons_self inp rest))
        with hterm | ⟨s2, n, hact, hused⟩
      · simp only [hterm]
        exact ⟨by simp, s.story, s.verdict, rfl⟩
      · simp only [hact]
        have hnc2 : ∀ i ∈ rest, nonCancelling i = true :=
          fun i hi => hnc i (List.mem_cons_of_mem inp hi)
        have hlen2 : (max_customizations - (s2.customizations_used : Int)).toNat ≤
            rest.length := by
          rw [hused]
          simp at hlen
          push_cast
          omega
        obtain ⟨hl, st, v, hv⟩ := ih s2 hnc2 hlen2
        refine ⟨?_, st, v, hv⟩
        simp only [List.length_cons]
        rw [hused] at hl
        push_cast at hl ⊢
        omega

/-- C6: with `max_customizations = N` and any stream of at least `N`
non-cancelling inputs, the customization loop reaches `terminal` within
`N + 1` menu presentations. -/
theorem C6_termination (env : PortEnv) (initial_request initial_story : String)
    (initial_verdict : Verdict) (reading_level : String) (N : Nat)
    (inputs : List UserInput)
    (hnc : ∀ inp ∈ inputs, nonCancelling inp = true)
    (hlen : N ≤ inputs.length) :
    (customization_menu env initial_request initial_story initial_verdict
      reading_level (N : Int) inputs).1.length ≤ N + 1 ∧
    ∃ st v, (customization_menu env initial_request initial_story initial_verdict
      reading_level (N : Int) inputs).2 = .terminal st v := by
  have h := menu_run_terminates env (N : Int) inputs
    ⟨initial_story, initial_verdict, initial_request, reading_level, 0⟩ hnc
    (by simpa using hlen)
  simpa [customization_menu] using h

/-- C6 witness: budget 1, one non-cancelling suggestion: terminal within
two presentations. -/
theorem C6_termination_witness :
    (customization_menu nullEnv "a fox story" "Once there was a fox." sampleVerdict
      "2" ((1 : Nat) : Int) [inputSuggest]).1.length ≤ 1 + 1 ∧
    ∃ st v, (customization_menu nullEnv "a fox story" "Once there was a fox."
      sampleVerdict "2" ((1 : Nat) : Int) [inputSuggest]).2 = .terminal st v :=
  C6_termination nullEnv "a fox story" "Once there was a fox." sampleVerdict "2" 1
    [inputSuggest] (by decide) (by decide)

/-- C10 counterexample: for the unrecognized level "abc",
`get_reading_level_label` does fall back to the level-2 label, but the two
other level-dependent helpers used by generation, evaluation and revision
fall back to their level-3 (ages 9–10) branch, not the level-2 one --
refuting the claim that those operations fall back to the intermediate
reading level. -/
theorem C10_counterexample :
    get_reading_level_label "abc" = get_reading_level_label "2" ∧
    get_spoken_style_instructions "abc" ≠ get_spoken_style_instructions "2" ∧
    get_length_instructions "abc" ≠ get_length_instructions "2" :=
  ⟨rfl, by decide, by decide⟩

/-- C10 amended: for every reading-level string outside {"1","2","3"},
`get_reading_level_label` returns the level-2 (ages 7–8) label
(`mapping["2"]`) instead of failing, while `get_spoken_style_instructions`
and `get_length_instructions` return their level-3 (ages 9–10) variants; so
generation, evaluation and revision silently proceed with the intermediate
label but standard-level style and length. -/
theorem C10_unrecognized_level_fallback (level : String)
    (h1 : level ≠ "1") (h2 : level ≠ "2") (h3 : level ≠ "3") :
    get_reading_level_label level = (reading_level_mapping.lookup "2").getD "" ∧
    get_spoken_style_instructions level = get_spoken_style_instructions "3" ∧
    get_length_instructions level = get_length_instructions "3" := by
  have e1 : (level == "1") = false := beq_eq_false_iff_ne.mpr h1
  have e2 : (level == "2") = false := beq_eq_false_iff_ne.mpr h2
  have e3 : (level == "3") = false := beq_eq_false_iff_ne.mpr h3
  refine ⟨?_, ?_, ?_⟩
  · simp [get_reading_level_label, reading_level_mapping, List.lookup, e1, e2, e3]
  · simp [get_spoken_style_instructions, h1, h2]
  · simp [get_length_instructions, h1, h2]

/-- C10 witness: instantiation at the unrecognized level "abc". -/
theorem C10_unrecognized_level_fallback_witness :
    get_reading_level_label "abc" = (reading_level_mapping.lookup "2").getD "" ∧
    get_spoken_style_instructions "abc" = get_spoken_style_instructions "3" ∧
    get_length_instructions "abc" = get_length_instructions "3" :=
  C10_unrecognized_level_fallback "abc" (by decide) (by decide) (by decide)

end Bedtime
